import Mathlib

/-!
Shallow embedding of the dh-400jdbc connection-pool and statement-execution
layer (src/index.js, src/lib/jdbc.js, src/lib/dh-400jdbc.js,
src/lib/utilities.js) together with theorems settling the frozen claims.

Driver calls (pool acquire, prepare, bind, execute, commit, rollback, close)
are modelled as oracle outcomes supplied in a world record: each call either
succeeds or throws a given error, and the embedded operation follows the
control flow of the JavaScript source (try, catch, finally, early return)
over those outcomes.  Functions with a J suffix come from src/lib/jdbc.js
(the implementation the current src/index.js dispatches to); functions with
a D suffix come from src/lib/dh-400jdbc.js.
-/

/-- Scalar values handed to the driver. -/
inductive Value where
  | str (s : String)
  | num (n : Int)
  | null
deriving DecidableEq

/-- Errors that the layer can produce or observe.  The maintenance case is
the Error built in src/index.js when the prevent-queries flag is on; the
referenceError and typeError cases model JavaScript runtime exceptions
raised by slips in the source; invalidParamType carries the offending
direction tag as in dh-400jdbc.js line 648. -/
inductive Err where
  | maintenance
  | notInitialized
  | driver (msg : String)
  | referenceError (name : String)
  | typeError (msg : String)
  | invalidParamType (tag : String)
deriving DecidableEq

deriving instance DecidableEq for Except

/-- Whitespace class of the regexes in trimValue and trim1 (the JavaScript
regex class backslash-s, restricted to its ASCII members). -/
def jsWhitespace (c : Char) : Bool :=
  c = ' ' || c = '\t' || c = '\n' || c = '\r' || c = '\x0b' || c = '\x0c'

/-- Effect of str.replace with the anchored greedy regex that matches a
nonempty leading whitespace run: the maximal leading run is removed, and a
string without leading whitespace is unchanged. -/
def replaceLeadingWsRun (s : List Char) : List Char :=
  s.dropWhile jsWhitespace

/-- Length of the maximal whitespace run at the end of the string; this is
what the trailing regex of trimValue matches (earliest start of a run that
extends to the end of the string). -/
def trailingWsRunLength (s : List Char) : Nat :=
  (s.reverse.takeWhile jsWhitespace).length

/-- Effect of str.replace with the trailing-whitespace regex: the matched
trailing run is removed. -/
def replaceTrailingWsRun (s : List Char) : List Char :=
  s.take (s.length - trailingWsRunLength s)

/-- JavaScript falsiness for a string-or-null value: null, undefined and the
empty string are falsy (none models both null and undefined). -/
def jsFalsy (v : Option String) : Bool :=
  match v with
  | none => true
  | some s => s == ""

/-- Embedding of exports.trimValue in src/lib/utilities.js: result defaults
to null; when the value is truthy, the leading and then the trailing
whitespace run are removed by the two replace calls. -/
def trimValue (str : Option String) : Option String :=
  match str with
  | none => none
  | some s =>
    if s = "" then none
    else some (String.mk (replaceTrailingWsRun (replaceLeadingWsRun s.toList)))

/-- Embedding of the helper trim1 in src/lib/dh-400jdbc.js, whose body is
identical to trimValue. -/
def trim1 (str : Option String) : Option String :=
  match str with
  | none => none
  | some s =>
    if s = "" then none
    else some (String.mk (replaceTrailingWsRun (replaceLeadingWsRun s.toList)))

/-- Claim-side description of trimming: drop leading whitespace, then drop
trailing whitespace (stated independently of the regex mechanics above). -/
def wsTrimmedChars (s : List Char) : List Char :=
  ((s.dropWhile jsWhitespace).reverse.dropWhile jsWhitespace).reverse

/-- Result cursor: the column names reported by the metadata object and the
raw string value of each column of each row (none models SQL NULL). -/
structure Cursor where
  cols : List String
  rows : List (List (Option String))
deriving DecidableEq

/-- Marshalled row record: column-name-to-value pairs plus the zero-based
index field appended by the row loop. -/
structure Row where
  fields : List (String × Option String)
  index : Nat
deriving DecidableEq

/-- Row loop shared by getResults (jdbc.js) and getResultsFromResultSet
(dh-400jdbc.js): for each row, pair each column name with the trimmed string
value of that column, record the current index, and advance.  The trimming
helper is passed in because jdbc.js uses trimValue and dh-400jdbc.js uses
trim1. -/
def buildRows (trim : Option String → Option String) (cols : List String)
    (idx : Nat) : List (List (Option String)) → List Row
  | [] => []
  | r :: rest =>
    { fields := (cols.zip r).map (fun kv => (kv.1, trim kv.2)), index := idx }
      :: buildRows trim cols (idx + 1) rest

/-- Exception raised when getResults receives a null result set: the call
rs.getMetaDataSync() on null throws a TypeError. -/
def nullCursorTypeError : Err :=
  Err.typeError "rs is null"

/-- Embedding of getResults in src/lib/jdbc.js lines 419 to 455: there is no
null check, so an absent cursor makes the metadata call throw; otherwise the
row loop runs with trimValue. -/
def getResults (rs : Option Cursor) : Except Err (List Row) :=
  match rs with
  | none => Except.error nullCursorTypeError
  | some c => Except.ok (buildRows trimValue c.cols 0 c.rows)

/-- Embedding of getResultsFromResultSet in src/lib/dh-400jdbc.js lines 36
to 86: an absent cursor returns an empty list and no error; otherwise the
row loop runs with trim1.  Metadata retrieval is modelled as succeeding. -/
def getResultsFromResultSet (rs : Option Cursor) : Except Err (List Row) :=
  match rs with
  | none => Except.ok []
  | some c => Except.ok (buildRows trim1 c.cols 0 c.rows)

/-- Modelled from the spec: the constants module src/lib/constants/
parameter-types.js is required by the sources but absent from src/.  Section
6 of the spec gives createSPInputParameter the tag in. -/
def INPUT_PARAM : String := "in"

/-- Modelled from the spec: section 6 of the spec gives
createSPOutputParameter the tag out. -/
def OUTPUT_PARAM : String := "out"

/-- Stored-procedure parameter descriptor: a type tag plus the input value,
or the output field name and sql data type (absent keys default). -/
structure SPParam where
  type : String
  value : Option Value := none
  fieldName : String := ""
  dataType : Nat := 0
deriving DecidableEq

/-- Embedding of exports.createSPInputParameter in src/index.js. -/
def createSPInputParameter (v : Value) : SPParam :=
  { type := INPUT_PARAM, value := some v }

/-- Embedding of exports.createSPOutputParameter in src/index.js. -/
def createSPOutputParameter (sqlDataType : Nat) (fieldName : String) : SPParam :=
  { type := OUTPUT_PARAM, fieldName := fieldName, dataType := sqlDataType }

/-- Value bound by a setObject call: either a scalar (dh-400jdbc.js binds
the descriptor value field) or a whole descriptor object (jdbc.js binds the
array element itself). -/
inductive BoundValue where
  | scalar (v : Option Value)
  | descriptor (p : SPParam)
deriving DecidableEq

/-- Action performed on the callable statement for one parameter. -/
inductive BindAction where
  | setObj (pos : Nat) (v : BoundValue)
  | regOut (pos : Nat) (dataType : Nat)
deriving DecidableEq

/-- Parameter walk of JDBC.executeStoredProcedure in src/lib/jdbc.js lines
282 to 291, at a given 1-based position: an output descriptor is registered
with its data type, and every other descriptor, whatever its tag, is bound
by setObjectSync with the descriptor object itself; no tag is rejected. -/
def spWalkJ (pos : Nat) : List SPParam → List BindAction
  | [] => []
  | p :: rest =>
    (if p.type = OUTPUT_PARAM then BindAction.regOut pos p.dataType
     else BindAction.setObj pos (BoundValue.descriptor p)) :: spWalkJ (pos + 1) rest

/-- Parameter walk of jdbc.js starting at position 1. -/
def spBindActionsJ (params : List SPParam) : List BindAction :=
  spWalkJ 1 params

/-- Parameter walk of JDBCConn.executeStoredProcedure in
src/lib/dh-400jdbc.js lines 638 to 650, at a given 1-based position: an
input descriptor has its value bound, an output descriptor is registered
with its data type, and any other tag stops the walk with an error whose
message names the offending tag. -/
def spWalkD (pos : Nat) : List SPParam → Except Err (List BindAction)
  | [] => Except.ok []
  | p :: rest =>
    if p.type = INPUT_PARAM then
      match spWalkD (pos + 1) rest with
      | Except.error e => Except.error e
      | Except.ok acts => Except.ok (BindAction.setObj pos (BoundValue.scalar p.value) :: acts)
    else if p.type = OUTPUT_PARAM then
      match spWalkD (pos + 1) rest with
      | Except.error e => Except.error e
      | Except.ok acts => Except.ok (BindAction.regOut pos p.dataType :: acts)
    else
      Except.error (Err.invalidParamType p.type)

/-- Parameter walk of dh-400jdbc.js starting at position 1. -/
def spBindActionsD (params : List SPParam) : Except Err (List BindAction) :=
  spWalkD 1 params

/-- Outcome of the positional bind loop: setObjectSync is called at
positions 1 to n and the first throwing call aborts the loop. -/
def bindLoopFrom (bindAt : Nat → Except Err Unit) : Nat → Nat → Except Err Unit
  | _, 0 => Except.ok ()
  | i, Nat.succ k =>
    match bindAt i with
    | Except.error e => Except.error e
    | Except.ok _ => bindLoopFrom bindAt (i + 1) k

/-- Bind loop over n parameters starting at position 1. -/
def bindLoop (bindAt : Nat → Except Err Unit) (n : Nat) : Except Err Unit :=
  bindLoopFrom bindAt 1 n

/-- Oracle outcomes for one run of JDBC.executeQuery. -/
structure QueryWorld where
  getConn : Except Err Unit
  autoCommit : Except Err Unit
  stmtPrep : Except Err Unit
  bindAt : Nat → Except Err Unit
  execQuery : Except Err Cursor
  closeStmt : Except Err Unit
  closeConn : Except Err Unit

/-- Oracle outcomes for one run of JDBC.executeStatement. -/
structure UpdateWorld where
  getConn : Except Err Unit
  autoCommit : Except Err Unit
  stmtPrep : Except Err Unit
  bindAt : Nat → Except Err Unit
  execUpdate : Except Err Unit
  closeStmt : Except Err Unit
  closeConn : Except Err Unit

/-- Oracle outcomes for one run of JDBC.executeStoredProcedure.  The
resultSet field is the value getResultSetSync returns after a successful
execute (none models a null result set reference). -/
structure ProcWorld where
  getConn : Except Err Unit
  autoCommit : Except Err Unit
  stmtPrep : Except Err Unit
  bindAt : Nat → Except Err Unit
  execCall : Except Err Unit
  resultSet : Option Cursor
  closeStmt : Except Err Unit
  closeConn : Except Err Unit

/-- What the finally block of jdbc.js did about the two closes. -/
structure CloseOutcome where
  stmtCloseAttempted : Bool
  connCloseAttempted : Bool
deriving DecidableEq

/-- Finally block of JDBC.executeQuery, executeStatement and
executeStoredProcedure: one try wraps statement close then connection
close, with a catch that only logs.  A throwing statement close therefore
skips the connection close; a throwing connection close is logged.  Nothing
here changes the primary error. -/
def finallyCloseBoth (stmtCreated connAcquired : Bool)
    (closeStmt : Except Err Unit) : CloseOutcome :=
  if stmtCreated then
    match closeStmt with
    | Except.error _ => { stmtCloseAttempted := true, connCloseAttempted := false }
    | Except.ok _ =>
      if connAcquired then { stmtCloseAttempted := true, connCloseAttempted := true }
      else { stmtCloseAttempted := true, connCloseAttempted := false }
  else
    if connAcquired then { stmtCloseAttempted := false, connCloseAttempted := true }
    else { stmtCloseAttempted := false, connCloseAttempted := false }

/-- Observable trace of one query or update operation: which resources were
acquired and closed, the error and rows delivered, and the sequence of
callback invocations with the error value of each. -/
structure OpTrace where
  connAcquired : Bool
  stmtCreated : Bool
  stmtCloseAttempted : Bool
  connCloseAttempted : Bool
  error : Option Err
  rows : List Row
  callbackCalls : List (Option Err)
deriving DecidableEq

/-- Exit of JDBC.executeQuery: run the finally block and fire the callback
exactly once with the primary error and the rows collected so far. -/
def finishQuery (w : QueryWorld) (connAcquired stmtCreated : Bool)
    (error : Option Err) (rows : List Row) : OpTrace :=
  let c := finallyCloseBoth stmtCreated connAcquired w.closeStmt
  { connAcquired := connAcquired, stmtCreated := stmtCreated,
    stmtCloseAttempted := c.stmtCloseAttempted,
    connCloseAttempted := c.connCloseAttempted,
    error := error, rows := rows, callbackCalls := [error] }

/-- Embedding of JDBC.executeQuery in src/lib/jdbc.js lines 98 to 151:
acquire a connection, set auto-commit, prepare, bind positionally, execute,
marshal the cursor; any throw lands in the catch which records the error,
and the finally block closes statement then connection and fires the
callback once. -/
def executeQueryJ (w : QueryWorld) (nParams : Nat) : OpTrace :=
  match w.getConn with
  | Except.error e => finishQuery w false false (some e) []
  | Except.ok _ =>
  match w.autoCommit with
  | Except.error e => finishQuery w true false (some e) []
  | Except.ok _ =>
  match w.stmtPrep with
  | Except.error e => finishQuery w true false (some e) []
  | Except.ok _ =>
  match bindLoop w.bindAt nParams with
  | Except.error e => finishQuery w true true (some e) []
  | Except.ok _ =>
  match w.execQuery with
  | Except.error e => finishQuery w true true (some e) []
  | Except.ok rs =>
  match getResults (some rs) with
  | Except.error e => finishQuery w true true (some e) []
  | Except.ok results => finishQuery w true true none results

/-- Exit of JDBC.executeStatement, identical finally structure. -/
def finishUpdate (w : UpdateWorld) (connAcquired stmtCreated : Bool)
    (error : Option Err) : OpTrace :=
  let c := finallyCloseBoth stmtCreated connAcquired w.closeStmt
  { connAcquired := connAcquired, stmtCreated := stmtCreated,
    stmtCloseAttempted := c.stmtCloseAttempted,
    connCloseAttempted := c.connCloseAttempted,
    error := error, rows := [], callbackCalls := [error] }

/-- Embedding of JDBC.executeStatement in src/lib/jdbc.js lines 159 to 208:
like executeQuery but running executeUpdateSync and returning no rows. -/
def executeStatementJ (w : UpdateWorld) (nParams : Nat) : OpTrace :=
  match w.getConn with
  | Except.error e => finishUpdate w false false (some e)
  | Except.ok _ =>
  match w.autoCommit with
  | Except.error e => finishUpdate w true false (some e)
  | Except.ok _ =>
  match w.stmtPrep with
  | Except.error e => finishUpdate w true false (some e)
  | Except.ok _ =>
  match bindLoop w.bindAt nParams with
  | Except.error e => finishUpdate w true true (some e)
  | Except.ok _ =>
  match w.execUpdate with
  | Except.error e => finishUpdate w true true (some e)
  | Except.ok _ => finishUpdate w true true none

/-- Result object of a stored procedure call: output parameter values keyed
by field name, and the optional resultSets field. -/
structure ProcResult where
  outputs : List (String × Option Value)
  resultSets : Option (List (List Row))
deriving DecidableEq

/-- Observable trace of one stored procedure call. -/
structure ProcTrace where
  connAcquired : Bool
  stmtCreated : Bool
  stmtCloseAttempted : Bool
  connCloseAttempted : Bool
  error : Option Err
  result : Option ProcResult
  callbackCalls : List (Option Err)
deriving DecidableEq

/-- Exit of JDBC.executeStoredProcedure: finally block then one callback
with the primary error and the result object built so far. -/
def finishProc (w : ProcWorld) (connAcquired stmtCreated : Bool)
    (error : Option Err) (result : Option ProcResult) : ProcTrace :=
  let c := finallyCloseBoth stmtCreated connAcquired w.closeStmt
  { connAcquired := connAcquired, stmtCreated := stmtCreated,
    stmtCloseAttempted := c.stmtCloseAttempted,
    connCloseAttempted := c.connCloseAttempted,
    error := error, result := result, callbackCalls := [error] }

/-- Output readback loop of JDBC.executeStoredProcedure, src/lib/jdbc.js
lines 300 to 306: the body of the output branch reads the misspelled
identifier statemnt, so under strict mode the first output descriptor makes
the loop throw a ReferenceError; with no output descriptor the loop
finishes without adding anything to the result object. -/
def readOutputsJ : List SPParam → Except Err (List (String × Option Value))
  | [] => Except.ok []
  | p :: rest =>
    if p.type = OUTPUT_PARAM then Except.error (Err.referenceError "statemnt")
    else readOutputsJ rest

/-- Embedding of JDBC.executeStoredProcedure in src/lib/jdbc.js lines 264
to 355.  After a successful execute the result object is created, the
output readback loop runs, then the code computes hasMoreResults as the
conjunction of rs being defined and rs being null (line 310), so a present
cursor skips the drain loop entirely and a null cursor enters it and
immediately calls getResults on the null reference, which throws. -/
def executeStoredProcedureJ (w : ProcWorld) (params : List SPParam) : ProcTrace :=
  match w.getConn with
  | Except.error e => finishProc w false false (some e) none
  | Except.ok _ =>
  match w.autoCommit with
  | Except.error e => finishProc w true false (some e) none
  | Except.ok _ =>
  match w.stmtPrep with
  | Except.error e => finishProc w true false (some e) none
  | Except.ok _ =>
  match bindLoop w.bindAt params.length with
  | Except.error e => finishProc w true true (some e) none
  | Except.ok _ =>
  match w.execCall with
  | Except.error e => finishProc w true true (some e) none
  | Except.ok _ =>
  match readOutputsJ params with
  | Except.error e => finishProc w true true (some e) (some { outputs := [], resultSets := none })
  | Except.ok outs =>
  match w.resultSet with
  | some _ =>
    -- hasMoreResults is false for a non-null cursor, so resultSets is never created
    finishProc w true true none (some { outputs := outs, resultSets := none })
  | none =>
    -- hasMoreResults is true for a null cursor: resultSets is initialized and the
    -- loop body calls getResults on the null reference
    match getResults none with
    | Except.error e =>
      finishProc w true true (some e) (some { outputs := outs, resultSets := some [] })
    | Except.ok rlist =>
      -- not reachable: getResults of an absent cursor always throws
      finishProc w true true none (some { outputs := outs, resultSets := some [rlist] })

/-- Oracle outcomes for one run of JDBC.executeStatementInTransaction. -/
structure TxStmtWorld where
  stmtPrep : Except Err Unit
  bindAt : Nat → Except Err Unit
  execUpdate : Except Err Unit
  closeStmt : Except Err Unit

/-- Observable trace of one in-transaction statement execution. -/
structure TxStmtTrace where
  stmtCreated : Bool
  stmtCloseAttempted : Bool
  error : Option Err
  callbackCalls : List (Option Err)
deriving DecidableEq

/-- Embedding of JDBC.executeStatementInTransaction in src/lib/jdbc.js
lines 217 to 256.  On the success path the try block evaluates callback()
as part of its return expression, and the pending return then runs the
finally block, whose own return statement invokes callback(error) a second
time with error still null; on error paths only the finally callback
fires. -/
def executeStatementInTransactionJ (w : TxStmtWorld) (nParams : Nat) : TxStmtTrace :=
  match w.stmtPrep with
  | Except.error e =>
    { stmtCreated := false, stmtCloseAttempted := false, error := some e,
      callbackCalls := [some e] }
  | Except.ok _ =>
  match bindLoop w.bindAt nParams with
  | Except.error e =>
    { stmtCreated := true, stmtCloseAttempted := true, error := some e,
      callbackCalls := [some e] }
  | Except.ok _ =>
  match w.execUpdate with
  | Except.error e =>
    { stmtCreated := true, stmtCloseAttempted := true, error := some e,
      callbackCalls := [some e] }
  | Except.ok _ =>
    { stmtCreated := true, stmtCloseAttempted := true, error := none,
      callbackCalls := [none, none] }

/-- How the user-supplied transaction body completes: it either calls done
with an optional error, or throws before calling done. -/
inductive BodyOutcome where
  | done (err : Option Err)
  | thrown (e : Err)
deriving DecidableEq

/-- Oracle outcomes for one run of JDBC.runTransaction. -/
structure TxWorld where
  getConn : Except Err Unit
  autoCommit : Except Err Unit
  body : BodyOutcome
  rollback : Except Err Unit
  commit : Except Err Unit
  closeConn : Except Err Unit

/-- Observable trace of one transaction run. -/
structure TxTrace where
  connAcquired : Bool
  connCloseAttempted : Bool
  rollbackAttempted : Bool
  commitAttempted : Bool
  error : Option Err
  callbackCalls : List (Option Err)
deriving DecidableEq

/-- Embedding of JDBC.runTransaction in src/lib/jdbc.js lines 362 to 404.
The done handler saves a body error and calls rollbackSync with no guard of
its own, so a rollback exception escapes to the outer catch, which
overwrites the saved body error with the rollback failure.  A commit
exception likewise lands in the outer catch and becomes the error.  The
finally block closes the connection (logging a close failure) and fires the
callback once with the recorded error. -/
def runTransactionJ (w : TxWorld) : TxTrace :=
  match w.getConn with
  | Except.error e =>
    { connAcquired := false, connCloseAttempted := false, rollbackAttempted := false,
      commitAttempted := false, error := some e, callbackCalls := [some e] }
  | Except.ok _ =>
  match w.autoCommit with
  | Except.error e =>
    { connAcquired := true, connCloseAttempted := true, rollbackAttempted := false,
      commitAttempted := false, error := some e, callbackCalls := [some e] }
  | Except.ok _ =>
  match w.body with
  | BodyOutcome.thrown e =>
    { connAcquired := true, connCloseAttempted := true, rollbackAttempted := false,
      commitAttempted := false, error := some e, callbackCalls := [some e] }
  | BodyOutcome.done none =>
    match w.commit with
    | Except.error e =>
      { connAcquired := true, connCloseAttempted := true, rollbackAttempted := false,
        commitAttempted := true, error := some e, callbackCalls := [some e] }
    | Except.ok _ =>
      { connAcquired := true, connCloseAttempted := true, rollbackAttempted := false,
        commitAttempted := true, error := none, callbackCalls := [none] }
  | BodyOutcome.done (some e1) =>
    match w.rollback with
    | Except.error e2 =>
      { connAcquired := true, connCloseAttempted := true, rollbackAttempted := true,
        commitAttempted := false, error := some e2, callbackCalls := [some e2] }
    | Except.ok _ =>
      { connAcquired := true, connCloseAttempted := true, rollbackAttempted := true,
        commitAttempted := false, error := some e1, callbackCalls := [some e1] }

/-- Oracle outcomes for one run of JDBCConn.runTransaction, whose body
always completes through done. -/
structure TxWorldD where
  getConn : Except Err Unit
  bodyErr : Option Err
  rollback : Except Err Unit
  commit : Except Err Unit
  closeConn : Except Err Unit

/-- Embedding of JDBCConn.runTransaction in src/lib/dh-400jdbc.js lines 773
to 835.  A body error triggers rollback whose failure is only logged, the
connection is closed, and the original body error is returned.  With no
body error, commit runs and a commit failure is also only logged: the
callback is invoked with no argument either way. -/
def runTransactionD (w : TxWorldD) : TxTrace :=
  match w.getConn with
  | Except.error e =>
    { connAcquired := false, connCloseAttempted := false, rollbackAttempted := false,
      commitAttempted := false, error := some e, callbackCalls := [some e] }
  | Except.ok _ =>
  match w.bodyErr with
  | some e1 =>
    -- rollback and close failures are logged only; the body error is returned
    { connAcquired := true, connCloseAttempted := true, rollbackAttempted := true,
      commitAttempted := false, error := some e1, callbackCalls := [some e1] }
  | none =>
    match w.commit with
    | Except.error _ =>
      -- the commit failure is logged and then callback() fires with no error
      { connAcquired := true, connCloseAttempted := true, rollbackAttempted := false,
        commitAttempted := true, error := none, callbackCalls := [none] }
    | Except.ok _ =>
      { connAcquired := true, connCloseAttempted := true, rollbackAttempted := false,
        commitAttempted := true, error := none, callbackCalls := [none] }

/-- Connection pool object built by connect: its identity and the argument
that was passed to fillSync. -/
structure PoolObj where
  id : Nat
  fillArg : Option Nat
deriving DecidableEq

/-- State of one JDBC wrapper object from src/lib/jdbc.js. -/
structure JDBCObj where
  id : Nat
  host : Option String
  libraries : Option String
  username : Option String
  password : Option String
  initialPoolCount : Option Nat
  connected : Bool
  pool : Option PoolObj
deriving DecidableEq

/-- Configuration object passed to exports.initialize in src/index.js (none
models an undefined field). -/
structure Config where
  host : Option String := none
  libraries : Option String := none
  username : Option String := none
  password : Option String := none
  initialPoolCount : Option Nat := none
deriving DecidableEq

/-- Defaults set by the JDBC constructor in src/lib/jdbc.js lines 25 to 37
before the options keys are copied: initialPoolCount 1, connected false, no
pool. -/
def jdbcDefaults (id : Nat) : JDBCObj :=
  { id := id, host := none, libraries := none, username := none, password := none,
    initialPoolCount := some 1, connected := false, pool := none }

/-- JDBC constructor applied to the options literal that exports.initialize
builds in src/index.js lines 60 to 67: that literal always contains the
initialPoolCount key, so the constructor copies every key over the
defaults, and the default 1 is overwritten even when the caller left
initialPoolCount undefined. -/
def jdbcNew (options : Config) (id : Nat) : JDBCObj :=
  { jdbcDefaults id with
    host := options.host, libraries := options.libraries,
    username := options.username, password := options.password,
    initialPoolCount := options.initialPoolCount }

/-- Embedding of JDBC.connect in src/lib/jdbc.js lines 43 to 68 with driver
construction and fill succeeding: when connected is true the call is
skipped, otherwise a fresh pool object is built and fillSync receives
this.initialPoolCount unchanged.  Nothing in the source ever sets connected
to true, so the guard can only fire if a caller set the flag itself. -/
def connectJ (j : JDBCObj) (freshPoolId : Nat) : Option Err × JDBCObj :=
  if j.connected then (none, j)
  else (none, { j with pool := some { id := freshPoolId, fillArg := j.initialPoolCount } })

/-- Module-level state of src/index.js: the current wrapper object, the
prevent-queries flag, and a supply of fresh object identities. -/
structure IdxState where
  jdbc : Option JDBCObj
  preventQueries : Bool
  nextId : Nat
deriving DecidableEq

/-- Embedding of exports.initialize in src/index.js lines 53 to 71: a new
JDBC wrapper is constructed unconditionally and connect is called on it. -/
def initializeIdx (options : Config) (st : IdxState) : Option Err × IdxState :=
  let j := jdbcNew options st.nextId
  let r := connectJ j (st.nextId + 1)
  (r.1, { st with jdbc := some r.2, nextId := st.nextId + 2 })

/-- Trace of a query or update entry point blocked by the maintenance gate:
the callback fires once with the maintenance error and nothing else
happens. -/
def blockedOpTrace : OpTrace :=
  { connAcquired := false, stmtCreated := false, stmtCloseAttempted := false,
    connCloseAttempted := false, error := some Err.maintenance, rows := [],
    callbackCalls := [some Err.maintenance] }

/-- Trace of a blocked in-transaction statement entry point. -/
def blockedTxStmtTrace : TxStmtTrace :=
  { stmtCreated := false, stmtCloseAttempted := false, error := some Err.maintenance,
    callbackCalls := [some Err.maintenance] }

/-- Trace of a blocked stored procedure entry point. -/
def blockedProcTrace : ProcTrace :=
  { connAcquired := false, stmtCreated := false, stmtCloseAttempted := false,
    connCloseAttempted := false, error := some Err.maintenance, result := none,
    callbackCalls := [some Err.maintenance] }

/-- Trace of a blocked transaction entry point. -/
def blockedTxTrace : TxTrace :=
  { connAcquired := false, connCloseAttempted := false, rollbackAttempted := false,
    commitAttempted := false, error := some Err.maintenance,
    callbackCalls := [some Err.maintenance] }

/-- Embedding of exports.executeSqlString in src/index.js lines 90 to 98:
check the prevent-queries flag first, then run executeQuery with an empty
parameter array. -/
def executeSqlStringIdx (st : IdxState) (w : QueryWorld) : OpTrace × IdxState :=
  if st.preventQueries then (blockedOpTrace, st)
  else (executeQueryJ w 0, st)

/-- Embedding of exports.executePreparedStatement in src/index.js lines 106
to 114. -/
def executePreparedStatementIdx (st : IdxState) (w : QueryWorld) (nParams : Nat) :
    OpTrace × IdxState :=
  if st.preventQueries then (blockedOpTrace, st)
  else (executeQueryJ w nParams, st)

/-- Embedding of exports.executeUpdatePreparedStatement in src/index.js
lines 122 to 130. -/
def executeUpdatePreparedStatementIdx (st : IdxState) (w : UpdateWorld) (nParams : Nat) :
    OpTrace × IdxState :=
  if st.preventQueries then (blockedOpTrace, st)
  else (executeStatementJ w nParams, st)

/-- Embedding of exports.executeUpdateStatementInTransaction in
src/index.js lines 139 to 147. -/
def executeUpdateStatementInTransactionIdx (st : IdxState) (w : TxStmtWorld)
    (nParams : Nat) : TxStmtTrace × IdxState :=
  if st.preventQueries then (blockedTxStmtTrace, st)
  else (executeStatementInTransactionJ w nParams, st)

/-- Embedding of exports.executeStoredProcedure in src/index.js lines 155
to 163. -/
def executeStoredProcedureIdx (st : IdxState) (w : ProcWorld) (params : List SPParam) :
    ProcTrace × IdxState :=
  if st.preventQueries then (blockedProcTrace, st)
  else (executeStoredProcedureJ w params, st)

/-- Embedding of exports.runTransaction in src/index.js lines 170 to 178. -/
def runTransactionIdx (st : IdxState) (w : TxWorld) : TxTrace × IdxState :=
  if st.preventQueries then (blockedTxTrace, st)
  else (runTransactionJ w, st)

/-- Sample cursor used by concrete evaluations: one column, two rows. -/
def demoCursor : Cursor :=
  { cols := ["NAME"], rows := [[some "  ABC   "], [some "B"]] }

/-- Query world in which every driver call succeeds. -/
def okQueryWorld (rs : Cursor) : QueryWorld :=
  { getConn := Except.ok (), autoCommit := Except.ok (), stmtPrep := Except.ok (),
    bindAt := fun _ => Except.ok (), execQuery := Except.ok rs,
    closeStmt := Except.ok (), closeConn := Except.ok () }

/-- Update world in which every driver call succeeds. -/
def okUpdateWorld : UpdateWorld :=
  { getConn := Except.ok (), autoCommit := Except.ok (), stmtPrep := Except.ok (),
    bindAt := fun _ => Except.ok (), execUpdate := Except.ok (),
    closeStmt := Except.ok (), closeConn := Except.ok () }

/-- Stored procedure world in which every driver call succeeds and
getResultSetSync returns the given reference. -/
def okProcWorld (rs : Option Cursor) : ProcWorld :=
  { getConn := Except.ok (), autoCommit := Except.ok (), stmtPrep := Except.ok (),
    bindAt := fun _ => Except.ok (), execCall := Except.ok (), resultSet := rs,
    closeStmt := Except.ok (), closeConn := Except.ok () }

/-- In-transaction statement world in which every driver call succeeds. -/
def okTxStmtWorld : TxStmtWorld :=
  { stmtPrep := Except.ok (), bindAt := fun _ => Except.ok (),
    execUpdate := Except.ok (), closeStmt := Except.ok () }

/-- Query world whose statement close throws: the one exit on which the
finally block of jdbc.js skips the connection close. -/
def stmtCloseFailsWorld : QueryWorld :=
  { okQueryWorld demoCursor with closeStmt := Except.error (Err.driver "stmt close failed") }

/-- Descriptor with an unrecognized direction tag. -/
def bogusParam : SPParam :=
  { type := "inout", value := some (Value.str "v") }

/-- Output parameter descriptor used in concrete evaluations. -/
def outParamTotal : SPParam :=
  { type := OUTPUT_PARAM, fieldName := "TOTAL", dataType := 4 }

/-- Concrete error values used by the transaction evaluations. -/
def bodyFailure : Err := Err.driver "body failed"

/-- Error thrown by rollbackSync in the concrete transaction evaluation. -/
def rollbackFailure : Err := Err.driver "rollback failed"

/-- Error delivered by the commit callback in the concrete transaction
evaluation. -/
def commitFailure : Err := Err.driver "commit failed"

/-- Transaction world for jdbc.js in which the body fails and rollback also
throws. -/
def rollbackFailsWorldJ : TxWorld :=
  { getConn := Except.ok (), autoCommit := Except.ok (),
    body := BodyOutcome.done (some bodyFailure),
    rollback := Except.error rollbackFailure, commit := Except.ok (),
    closeConn := Except.ok () }

/-- Transaction world for dh-400jdbc.js in which the body succeeds and
commit fails. -/
def commitFailsWorldD : TxWorldD :=
  { getConn := Except.ok (), bodyErr := none, rollback := Except.ok (),
    commit := Except.error commitFailure, closeConn := Except.ok () }

/-- Base module state: no wrapper yet, gate open. -/
def idxState0 : IdxState :=
  { jdbc := none, preventQueries := false, nextId := 0 }

/-- Configuration with every connection field set and an explicit pool
count. -/
def demoConfig : Config :=
  { host := some "h", libraries := some "LIB", username := some "u",
    password := some "p", initialPoolCount := some 2 }

/-- Configuration identical to demoConfig but with initialPoolCount left
undefined. -/
def demoConfigNoCount : Config :=
  { demoConfig with initialPoolCount := none }

/-- Module state with the prevent-queries flag raised. -/
def blockedState : IdxState :=
  { jdbc := none, preventQueries := true, nextId := 0 }

/-- Release discipline actually implemented by the finally blocks of
jdbc.js, stated over a query or update trace: the callback fires exactly
once carrying the primary error (close failures never replace it), a
created statement always has its close attempted, and an acquired
connection has its close attempted provided the statement close, if any,
did not throw. -/
def releaseDiscipline (closeStmt : Except Err Unit) (t : OpTrace) : Prop :=
  t.callbackCalls = [t.error] ∧
  (t.stmtCreated = true → t.stmtCloseAttempted = true) ∧
  (t.connAcquired = true → (t.stmtCreated = true → closeStmt = Except.ok ()) →
    t.connCloseAttempted = true)

/-- Release discipline stated over a stored procedure trace. -/
def releaseDisciplineProc (closeStmt : Except Err Unit) (t : ProcTrace) : Prop :=
  t.callbackCalls = [t.error] ∧
  (t.stmtCreated = true → t.stmtCloseAttempted = true) ∧
  (t.connAcquired = true → (t.stmtCreated = true → closeStmt = Except.ok ()) →
    t.connCloseAttempted = true)

/-!
Theorems.  Helper lemmas come first; each claim of the specification is then
settled by one named theorem (with a counterexample or witness theorem where
required).
-/

/-- C1 counterexample: in JDBC.executeQuery a statement close failure makes
the finally block skip the connection close, so a connection that was
acquired is not released and the call leaves one extra connection on loan,
contradicting the claim that the connection is released on every exit
path. -/
theorem executeQuery_leaks_on_stmt_close_failure :
    (executeQueryJ stmtCloseFailsWorld 0).connAcquired = true ∧
    (executeQueryJ stmtCloseFailsWorld 0).stmtCloseAttempted = true ∧
    (executeQueryJ stmtCloseFailsWorld 0).connCloseAttempted = false := by decide

/-- C3 code_bug evaluation: when prepare, bind and execute all succeed,
JDBC.executeStatementInTransaction invokes its callback twice, once from
the return expression of the try block and once from the return in the
finally block, contradicting the exactly-once completion claim. -/
theorem executeStatementInTransaction_double_callback :
    (executeStatementInTransactionJ okTxStmtWorld 0).callbackCalls = [none, none] ∧
    (executeStatementInTransactionJ okTxStmtWorld 0).callbackCalls.length = 2 := by decide

/-- C5 code_bug evaluation: a stored procedure call through
JDBC.executeStoredProcedure that produces one result set yields a result
object with no resultSets field at all because the hasMoreResults test is
inverted, a call with one output parameter fails with a ReferenceError on
the misspelled identifier statemnt instead of storing the value under its
field name, and a null result set reference drives the drain loop into
getResults, which throws. -/
theorem executeStoredProcedure_drops_result_sets :
    ((executeStoredProcedureJ (okProcWorld (some demoCursor)) []).error = none ∧
     (executeStoredProcedureJ (okProcWorld (some demoCursor)) []).result =
       some { outputs := [], resultSets := none }) ∧
    ((executeStoredProcedureJ (okProcWorld (some demoCursor)) [outParamTotal]).error =
       some (Err.referenceError "statemnt") ∧
     (executeStoredProcedureJ (okProcWorld (some demoCursor)) [outParamTotal]).result =
       some { outputs := [], resultSets := none }) ∧
    (executeStoredProcedureJ (okProcWorld none) []).error = some nullCursorTypeError := by
  decide

/-- C6 code_bug evaluation: in JDBC.runTransaction a rollback failure
escapes to the outer catch and replaces the body error that should have
been returned, and in JDBCConn.runTransaction a commit failure is only
logged and the caller receives no error at all, contradicting the claim
that the original body error is propagated and that a commit failure
becomes the returned error. -/
theorem runTransaction_error_substitution :
    ((runTransactionJ rollbackFailsWorldJ).rollbackAttempted = true ∧
     (runTransactionJ rollbackFailsWorldJ).error = some rollbackFailure ∧
     rollbackFailure ≠ bodyFailure ∧
     (runTransactionJ rollbackFailsWorldJ).connCloseAttempted = true) ∧
    ((runTransactionD commitFailsWorldD).commitAttempted = true ∧
     (runTransactionD commitFailsWorldD).error = none ∧
     (runTransactionD commitFailsWorldD).connCloseAttempted = true) := by decide

/-- C7 code_bug evaluation: calling initialize twice with the same
configuration builds a second pool object with a fresh identity and fills
it again, because exports.initialize constructs a new wrapper on every call
and JDBC.connect never records a successful connection in the connected
flag, contradicting the claim that the second call is an immediate no-op
success. -/
theorem initialize_not_idempotent :
    (initializeIdx demoConfig idxState0).1 = none ∧
    ((initializeIdx demoConfig idxState0).2.jdbc.bind JDBCObj.pool).map PoolObj.id =
      some 1 ∧
    (initializeIdx demoConfig (initializeIdx demoConfig idxState0).2).1 = none ∧
    ((initializeIdx demoConfig (initializeIdx demoConfig idxState0).2).2.jdbc.bind
        JDBCObj.pool).map PoolObj.id = some 3 ∧
    (1 : Nat) ≠ 3 ∧
    ((initializeIdx demoConfig idxState0).2.jdbc.map JDBCObj.connected) = some false ∧
    ((initializeIdx demoConfig (initializeIdx demoConfig idxState0).2).2.jdbc.bind
        JDBCObj.pool).map PoolObj.fillArg = some (some 2) := by decide

/-- C9 code_bug evaluation: the constructor default for initialPoolCount is
1, but exports.initialize always passes the initialPoolCount key of its
options literal, so a configuration that leaves the count unset reaches
fillSync as undefined rather than 1; a configuration that sets the count
fills the pool to that count. -/
theorem initialPoolCount_default_clobbered :
    (jdbcDefaults 0).initialPoolCount = some 1 ∧
    ((initializeIdx demoConfigNoCount idxState0).2.jdbc.bind JDBCObj.pool).map
        PoolObj.fillArg = some none ∧
    (none : Option Nat) ≠ some 1 ∧
    ((initializeIdx demoConfig idxState0).2.jdbc.bind JDBCObj.pool).map
        PoolObj.fillArg = some (some 2) := by decide

/-- C8 counterexample: the synchronous marshaller getResults of jdbc.js has
no null check, so an absent cursor makes it throw instead of returning an
empty sequence without error as the claim states. -/
theorem getResults_throws_on_absent_cursor :
    getResults none = Except.error nullCursorTypeError ∧
    getResults none ≠ Except.ok [] := by decide

/-- C4 counterexample: JDBC.executeStoredProcedure accepts a descriptor
with an unrecognized direction tag without any invalid-parameter-type
error, binding the descriptor object itself at the position, and it also
binds an input descriptor as the whole descriptor object rather than its
value. -/
theorem invalid_direction_not_rejected :
    spBindActionsJ [bogusParam] =
      [BindAction.setObj 1 (BoundValue.descriptor bogusParam)] ∧
    (executeStoredProcedureJ (okProcWorld (some demoCursor)) [bogusParam]).error = none ∧
    spBindActionsJ [createSPInputParameter (Value.num 7)] =
      [BindAction.setObj 1 (BoundValue.descriptor (createSPInputParameter (Value.num 7)))] := by
  decide

/-- Helper: a created statement always has its close attempted by the
finally block. -/
theorem finallyCloseBoth_stmt (sc ca : Bool) (cs : Except Err Unit) (h : sc = true) :
    (finallyCloseBoth sc ca cs).stmtCloseAttempted = true := by
  subst h
  unfold finallyCloseBoth
  rcases cs with e | u
  · rfl
  · cases ca <;> rfl

/-- Helper: the finally block attempts the connection close whenever a
connection was acquired and the statement close, if a statement exists, did
not throw. -/
theorem finallyCloseBoth_conn (sc ca : Bool) (cs : Except Err Unit) (hca : ca = true)
    (hcs : sc = true → cs = Except.ok ()) :
    (finallyCloseBoth sc ca cs).connCloseAttempted = true := by
  subst hca
  unfold finallyCloseBoth
  cases sc with
  | false => rfl
  | true =>
    rw [hcs rfl]
    rfl

/-- Helper: every exit of executeQuery taken through finishQuery obeys the
release discipline. -/
theorem finishQuery_discipline (w : QueryWorld) (ca sc : Bool) (e : Option Err)
    (rows : List Row) : releaseDiscipline w.closeStmt (finishQuery w ca sc e rows) := by
  refine ⟨rfl, ?_, ?_⟩
  · intro h
    exact finallyCloseBoth_stmt sc ca w.closeStmt h
  · intro hca hcs
    exact finallyCloseBoth_conn sc ca w.closeStmt hca hcs

/-- Helper: every exit of executeStatement taken through finishUpdate obeys
the release discipline. -/
theorem finishUpdate_discipline (w : UpdateWorld) (ca sc : Bool) (e : Option Err) :
    releaseDiscipline w.closeStmt (finishUpdate w ca sc e) := by
  refine ⟨rfl, ?_, ?_⟩
  · intro h
    exact finallyCloseBoth_stmt sc ca w.closeStmt h
  · intro hca hcs
    exact finallyCloseBoth_conn sc ca w.closeStmt hca hcs

/-- Helper: every exit of executeStoredProcedure taken through finishProc
obeys the release discipline. -/
theorem finishProc_discipline (w : ProcWorld) (ca sc : Bool) (e : Option Err)
    (r : Option ProcResult) : releaseDisciplineProc w.closeStmt (finishProc w ca sc e r) := by
  refine ⟨rfl, ?_, ?_⟩
  · intro h
    exact finallyCloseBoth_stmt sc ca w.closeStmt h
  · intro hca hcs
    exact finallyCloseBoth_conn sc ca w.closeStmt hca hcs

/-- Helper: executeQuery obeys the release discipline on every exit path. -/
theorem executeQueryJ_discipline (w : QueryWorld) (n : Nat) :
    releaseDiscipline w.closeStmt (executeQueryJ w n) := by
  unfold executeQueryJ
  repeat' split
  all_goals exact finishQuery_discipline w _ _ _ _

/-- Helper: executeStatement obeys the release discipline on every exit
path. -/
theorem executeStatementJ_discipline (w : UpdateWorld) (n : Nat) :
    releaseDiscipline w.closeStmt (executeStatementJ w n) := by
  unfold executeStatementJ
  repeat' split
  all_goals exact finishUpdate_discipline w _ _ _

/-- Helper: executeStoredProcedure obeys the release discipline on every
exit path. -/
theorem executeStoredProcedureJ_discipline (w : ProcWorld) (ps : List SPParam) :
    releaseDisciplineProc w.closeStmt (executeStoredProcedureJ w ps) := by
  unfold executeStoredProcedureJ
  repeat' split
  all_goals exact finishProc_discipline w _ _ _ _

/-- C1 amended: on every exit path each of executeQuery, executeStatement
and executeStoredProcedure invokes its callback exactly once with the
primary error (close failures are logged and never replace it), attempts
the statement close whenever a statement was created, and attempts the
connection close whenever a connection was acquired and the statement
close did not throw; when the statement close throws, the connection close
is skipped and the connection stays on loan (see the counterexample). -/
theorem release_discipline_all (wq : QueryWorld) (wu : UpdateWorld) (wp : ProcWorld)
    (nq nu : Nat) (ps : List SPParam) :
    releaseDiscipline wq.closeStmt (executeQueryJ wq nq) ∧
    releaseDiscipline wu.closeStmt (executeStatementJ wu nu) ∧
    releaseDisciplineProc wp.closeStmt (executeStoredProcedureJ wp ps) :=
  ⟨executeQueryJ_discipline wq nq, executeStatementJ_discipline wu nu,
   executeStoredProcedureJ_discipline wp ps⟩

/-- C1 witness: at a world where every driver call succeeds, the
connection close of executeQuery is attempted. -/
theorem release_discipline_all_witness :
    (executeQueryJ (okQueryWorld demoCursor) 0).connCloseAttempted = true := by
  have h := release_discipline_all (okQueryWorld demoCursor) okUpdateWorld
    (okProcWorld (some demoCursor)) 0 0 []
  exact h.1.2.2 (by decide) (fun _ => rfl)

/-- C2: when the prevent-queries flag is set, every query, update, stored
procedure and transaction entry point of src/index.js completes once with
the maintenance error, acquires no connection, and leaves the module state
unchanged. -/
theorem maintenance_gate_blocks (st : IdxState) (h : st.preventQueries = true)
    (wq wq2 : QueryWorld) (wu : UpdateWorld) (wt : TxStmtWorld) (wp : ProcWorld)
    (wx : TxWorld) (n m k : Nat) (ps : List SPParam) :
    executeSqlStringIdx st wq = (blockedOpTrace, st) ∧
    executePreparedStatementIdx st wq2 n = (blockedOpTrace, st) ∧
    executeUpdatePreparedStatementIdx st wu m = (blockedOpTrace, st) ∧
    executeUpdateStatementInTransactionIdx st wt k = (blockedTxStmtTrace, st) ∧
    executeStoredProcedureIdx st wp ps = (blockedProcTrace, st) ∧
    runTransactionIdx st wx = (blockedTxTrace, st) ∧
    blockedOpTrace.error = some Err.maintenance ∧
    blockedOpTrace.connAcquired = false ∧
    blockedOpTrace.callbackCalls = [some Err.maintenance] ∧
    blockedTxStmtTrace.error = some Err.maintenance ∧
    blockedProcTrace.error = some Err.maintenance ∧
    blockedProcTrace.connAcquired = false ∧
    blockedTxTrace.error = some Err.maintenance ∧
    blockedTxTrace.connAcquired = false := by
  refine ⟨?_, ?_, ?_, ?_, ?_, ?_, rfl, rfl, rfl, rfl, rfl, rfl, rfl, rfl⟩ <;>
    simp [executeSqlStringIdx, executePreparedStatementIdx,
      executeUpdatePreparedStatementIdx, executeUpdateStatementInTransactionIdx,
      executeStoredProcedureIdx, runTransactionIdx, h]

/-- C2 witness: with the flag raised in a concrete state, executeSqlString
returns the blocked trace and the untouched state. -/
theorem maintenance_gate_blocks_witness :
    executeSqlStringIdx blockedState (okQueryWorld demoCursor) =
      (blockedOpTrace, blockedState) :=
  (maintenance_gate_blocks blockedState rfl (okQueryWorld demoCursor)
    (okQueryWorld demoCursor) okUpdateWorld okTxStmtWorld
    (okProcWorld (some demoCursor))
    rollbackFailsWorldJ 0 0 0 []).1

/-- Helper: length of the jdbc.js parameter walk, and the action performed
at each position. -/
theorem spWalkJ_char (pos : Nat) (ps : List SPParam) :
    (spWalkJ pos ps).length = ps.length ∧
    ∀ i, (spWalkJ pos ps).get? i = (ps.get? i).map (fun p =>
      if p.type = OUTPUT_PARAM then BindAction.regOut (pos + i) p.dataType
      else BindAction.setObj (pos + i) (BoundValue.descriptor p)) := by
  induction ps generalizing pos with
  | nil => exact ⟨rfl, fun i => by simp [spWalkJ]⟩
  | cons p rest ih =>
    refine ⟨by simp [spWalkJ, (ih (pos + 1)).1], fun i => ?_⟩
    cases i with
    | zero => simp [spWalkJ]
    | succ k =>
      have harith : pos + 1 + k = pos + (k + 1) := by omega
      have h := (ih (pos + 1)).2 k
      simp only [spWalkJ, List.get?_cons_succ, h, harith]

/-- Helper: when every descriptor carries a recognized direction tag, the
dh-400jdbc.js parameter walk succeeds, produces one action per descriptor,
and at each position binds the input value or registers the output type. -/
theorem spWalkD_ok_char (pos : Nat) (ps : List SPParam)
    (h : ∀ p ∈ ps, p.type = INPUT_PARAM ∨ p.type = OUTPUT_PARAM) :
    ∃ acts, spWalkD pos ps = Except.ok acts ∧ acts.length = ps.length ∧
      ∀ i, acts.get? i = (ps.get? i).map (fun p =>
        if p.type = OUTPUT_PARAM then BindAction.regOut (pos + i) p.dataType
        else BindAction.setObj (pos + i) (BoundValue.scalar p.value)) := by
  induction ps generalizing pos with
  | nil => exact ⟨[], rfl, rfl, fun i => by simp⟩
  | cons p rest ih =>
    obtain ⟨acts, ha, hlen, hget⟩ :=
      ih (pos + 1) (fun q hq => h q (List.mem_cons_of_mem p hq))
    have harith : ∀ k : Nat, pos + 1 + k = pos + (k + 1) := fun k => by omega
    rcases h p (List.mem_cons_self p rest) with hin | hout
    · refine ⟨BindAction.setObj pos (BoundValue.scalar p.value) :: acts, ?_,
        by simp [hlen], fun i => ?_⟩
      · simp [spWalkD, hin, ha]
      · cases i with
        | zero => simp [hin, INPUT_PARAM, OUTPUT_PARAM]
        | succ k => simp only [List.get?_cons_succ, hget k, harith k]
    · refine ⟨BindAction.regOut pos p.dataType :: acts, ?_,
        by simp [hlen], fun i => ?_⟩
      · simp [spWalkD, hout, ha, INPUT_PARAM, OUTPUT_PARAM]
      · cases i with
        | zero => simp [hout]
        | succ k => simp only [List.get?_cons_succ, hget k, harith k]

/-- Helper: when some descriptor carries an unrecognized direction tag, the
dh-400jdbc.js parameter walk fails with an invalid-parameter-type error
whose message names the tag of an offending descriptor. -/
theorem spWalkD_error_char (pos : Nat) (ps : List SPParam)
    (h : ∃ p ∈ ps, p.type ≠ INPUT_PARAM ∧ p.type ≠ OUTPUT_PARAM) :
    ∃ t, spWalkD pos ps = Except.error (Err.invalidParamType t) ∧
      ∃ p ∈ ps, p.type = t ∧ p.type ≠ INPUT_PARAM ∧ p.type ≠ OUTPUT_PARAM := by
  induction ps generalizing pos with
  | nil => simp at h
  | cons p rest ih =>
    by_cases hin : p.type = INPUT_PARAM
    · have hrest : ∃ q ∈ rest, q.type ≠ INPUT_PARAM ∧ q.type ≠ OUTPUT_PARAM := by
        obtain ⟨q, hq, hbad⟩ := h
        rcases List.mem_cons.mp hq with heq | hq2
        · exact absurd hin (heq ▸ hbad.1)
        · exact ⟨q, hq2, hbad⟩
      obtain ⟨t, ht, q, hq, hqt⟩ := ih (pos + 1) hrest
      exact ⟨t, by simp [spWalkD, hin, ht], q, List.mem_cons_of_mem p hq, hqt⟩
    · by_cases hout : p.type = OUTPUT_PARAM
      · have hrest : ∃ q ∈ rest, q.type ≠ INPUT_PARAM ∧ q.type ≠ OUTPUT_PARAM := by
          obtain ⟨q, hq, hbad⟩ := h
          rcases List.mem_cons.mp hq with heq | hq2
          · exact absurd hout (heq ▸ hbad.2)
          · exact ⟨q, hq2, hbad⟩
        obtain ⟨t, ht, q, hq, hqt⟩ := ih (pos + 1) hrest
        exact ⟨t, by simp [spWalkD, hin, hout, ht], q, List.mem_cons_of_mem p hq, hqt⟩
      · exact ⟨p.type, by simp [spWalkD, hin, hout], p, List.mem_cons_self p rest,
          rfl, hin, hout⟩

/-- C4 amended: the dh-400jdbc.js walk implements the claimed protocol, in
declared order, with input values bound and output types registered at
their 1-based positions and any other tag failing with an
invalid-parameter-type error naming the offending tag; the jdbc.js walk
reached from the current index.js instead never fails and binds every
non-output descriptor, input or invalid, as the descriptor object itself. -/
theorem storedProcedure_parameter_walk (ps : List SPParam) :
    ((∀ p ∈ ps, p.type = INPUT_PARAM ∨ p.type = OUTPUT_PARAM) →
      ∃ acts, spBindActionsD ps = Except.ok acts ∧ acts.length = ps.length ∧
        ∀ i, acts.get? i = (ps.get? i).map (fun p =>
          if p.type = OUTPUT_PARAM then BindAction.regOut (i + 1) p.dataType
          else BindAction.setObj (i + 1) (BoundValue.scalar p.value))) ∧
    ((∃ p ∈ ps, p.type ≠ INPUT_PARAM ∧ p.type ≠ OUTPUT_PARAM) →
      ∃ t, spBindActionsD ps = Except.error (Err.invalidParamType t) ∧
        ∃ p ∈ ps, p.type = t ∧ p.type ≠ INPUT_PARAM ∧ p.type ≠ OUTPUT_PARAM) ∧
    ((spBindActionsJ ps).length = ps.length ∧
      ∀ i, (spBindActionsJ ps).get? i = (ps.get? i).map (fun p =>
        if p.type = OUTPUT_PARAM then BindAction.regOut (i + 1) p.dataType
        else BindAction.setObj (i + 1) (BoundValue.descriptor p))) := by
  refine ⟨?_, ?_, ?_⟩
  · intro h
    obtain ⟨acts, ha, hlen, hget⟩ := spWalkD_ok_char 1 ps h
    refine ⟨acts, ha, hlen, fun i => ?_⟩
    simpa [Nat.add_comm] using hget i
  · intro h
    exact spWalkD_error_char 1 ps h
  · refine ⟨(spWalkJ_char 1 ps).1, fun i => ?_⟩
    simpa [Nat.add_comm] using (spWalkJ_char 1 ps).2 i

/-- C4 witness: a well-tagged parameter list makes the dh-400jdbc.js walk
succeed with one action per descriptor. -/
theorem storedProcedure_parameter_walk_witness :
    ∃ acts, spBindActionsD [createSPInputParameter (Value.num 7), outParamTotal] =
      Except.ok acts ∧ acts.length = 2 := by
  obtain ⟨acts, h1, h2, h3⟩ := (storedProcedure_parameter_walk
    [createSPInputParameter (Value.num 7), outParamTotal]).1 (by decide)
  exact ⟨acts, h1, by simpa using h2⟩

/-- Helper: the row loop yields one record per source row. -/
theorem buildRows_length (t : Option String → Option String) (cols : List String)
    (idx : Nat) (rows : List (List (Option String))) :
    (buildRows t cols idx rows).length = rows.length := by
  induction rows generalizing idx with
  | nil => rfl
  | cons r rest ih => simp [buildRows, ih]

/-- Helper: the record at position i of the row loop output marshals the
source row at position i and carries index idx plus i. -/
theorem buildRows_get? (t : Option String → Option String) (cols : List String)
    (idx : Nat) (rows : List (List (Option String))) (i : Nat) :
    (buildRows t cols idx rows).get? i = (rows.get? i).map (fun r =>
      { fields := (cols.zip r).map (fun kv => (kv.1, t kv.2)), index := idx + i }) := by
  induction rows generalizing idx i with
  | nil => simp [buildRows]
  | cons r rest ih =>
    cases i with
    | zero => simp [buildRows]
    | succ k =>
      have harith : idx + 1 + k = idx + (k + 1) := by omega
      simp only [buildRows, List.get?_cons_succ, ih (idx + 1) k, harith]

/-- Helper: trim1 of dh-400jdbc.js and trimValue of utilities.js are the
same function. -/
theorem trim1_eq_trimValue : trim1 = trimValue := rfl

/-- C8 amended: the callback-style marshaller getResultsFromResultSet
returns an empty sequence and no error on an absent cursor, while the
synchronous marshaller getResults throws on an absent cursor; on a present
cursor both return the same sequence with one record per row in source
order, each record pairing every column name with the trimmed value of
that column and carrying a zero-based index equal to the row position. -/
theorem marshaller_behavior (c : Cursor) :
    getResultsFromResultSet none = Except.ok [] ∧
    getResults none = Except.error nullCursorTypeError ∧
    getResults (some c) = getResultsFromResultSet (some c) ∧
    ∃ rows, getResultsFromResultSet (some c) = Except.ok rows ∧
      rows.length = c.rows.length ∧
      ∀ i, rows.get? i = (c.rows.get? i).map (fun r =>
        { fields := (c.cols.zip r).map (fun kv => (kv.1, trimValue kv.2)), index := i }) := by
  refine ⟨rfl, rfl, ?_, ?_⟩
  · simp [getResults, getResultsFromResultSet, trim1_eq_trimValue]
  · refine ⟨buildRows trim1 c.cols 0 c.rows, rfl,
      buildRows_length trim1 c.cols 0 c.rows, fun i => ?_⟩
    simpa [trim1_eq_trimValue] using buildRows_get? trim1 c.cols 0 c.rows i

/-- C8 witness: on the sample cursor the marshaller returns two records. -/
theorem marshaller_behavior_witness :
    ∃ rows, getResultsFromResultSet (some demoCursor) = Except.ok rows ∧
      rows.length = 2 := by
  obtain ⟨rows, h1, h2, h3⟩ := (marshaller_behavior demoCursor).2.2.2
  exact ⟨rows, h1, by simpa using h2⟩

/-- Helper: removing the trailing whitespace run as the regex does agrees
with reversing, dropping the leading run, and reversing back. -/
theorem replaceTrailingWsRun_eq_dropWhile (l : List Char) :
    replaceTrailingWsRun l = (l.reverse.dropWhile jsWhitespace).reverse := by
  unfold replaceTrailingWsRun trailingWsRunLength
  obtain ⟨d, t, hd, ht, hsplit⟩ :
      ∃ d t, d = (l.reverse.dropWhile jsWhitespace).reverse ∧
        t = (l.reverse.takeWhile jsWhitespace).reverse ∧ l = d ++ t := by
    refine ⟨_, _, rfl, rfl, ?_⟩
    calc l = (l.reverse).reverse := (List.reverse_reverse l).symm
    _ = ((l.reverse.takeWhile jsWhitespace) ++ (l.reverse.dropWhile jsWhitespace)).reverse := by
        rw [List.takeWhile_append_dropWhile]
    _ = (l.reverse.dropWhile jsWhitespace).reverse ++
        (l.reverse.takeWhile jsWhitespace).reverse := by
        rw [List.reverse_append]
  have hTlen : (l.reverse.takeWhile jsWhitespace).length = t.length := by
    rw [ht, List.length_reverse]
  rw [← hd, hTlen, hsplit, List.length_append, Nat.add_sub_cancel]
  exact List.take_left d t

/-- Helper: on a truthy string, trimValue removes the leading and trailing
whitespace runs. -/
theorem trimValue_truthy (s : String) (h : s ≠ "") :
    trimValue (some s) = some (String.mk (wsTrimmedChars s.toList)) := by
  have hstep : trimValue (some s) = if s = "" then none
      else some (String.mk (replaceTrailingWsRun (replaceLeadingWsRun s.toList))) := rfl
  rw [hstep, if_neg h, replaceTrailingWsRun_eq_dropWhile]
  rfl

/-- C10: the trimming function maps every falsy input (null, undefined or
the empty string) to null and every truthy string to the string with its
leading and trailing whitespace runs removed, and the row marshaller
stores exactly trimValue of the raw column value in the record. -/
theorem trimValue_spec :
    (∀ v : Option String, jsFalsy v = true → trimValue v = none) ∧
    (∀ s : String, s ≠ "" → trimValue (some s) = some (String.mk (wsTrimmedChars s.toList))) ∧
    (∀ (c : String) (v : Option String),
      buildRows trimValue [c] 0 [[v]] = [{ fields := [(c, trimValue v)], index := 0 }]) := by
  refine ⟨?_, ?_, ?_⟩
  · intro v hv
    match v with
    | none => rfl
    | some s =>
      have hs : s = "" := by simpa [jsFalsy] using hv
      simp [trimValue, hs]
  · intro s h
    exact trimValue_truthy s h
  · intro c v
    rfl

/-- C10 witness: concrete evaluations of the trimming function through the
theorem. -/
theorem trimValue_spec_witness :
    trimValue (some "  ABC   ") = some "ABC" ∧ trimValue (some "") = none ∧
    trimValue (some "   ") = some "" := by
  refine ⟨?_, ?_, ?_⟩
  · have h := trimValue_spec.2.1 "  ABC   " (by decide)
    rw [h]
    decide
  · exact trimValue_spec.1 (some "") (by decide)
  · have h := trimValue_spec.2.1 "   " (by decide)
    rw [h]
    decide
